import Mathlib

/-!
Verification of the MCP server wrapper `src/samples/mcp-servers/gemini-wrapper.py`.

The program is a line-oriented JSON-RPC loop: it reads one line at a time from
standard input, parses it as JSON, dispatches on the `method` field
(`initialize`, `tools/list`, `tools/call`), and prints exactly one JSON-RPC
response per successfully parsed request.  The one registered tool,
`gemini_search`, shells out to the external `gemini` executable.

Embedding choices:
* `JVal` is the type of parsed JSON values (the result of Python `json.loads`).
  Object fields model a parsed Python dict, so keys are distinct; JSON numbers
  are embedded as `Int` (no claim involves floats).  Python `None` and JSON
  `null` are the same runtime value after parsing, so a missing field and a
  `null` field both become `JVal.null` under `dict.get`.
* The external process runner (`subprocess.run`) is an abstract parameter of
  type `Runner`; its result is an `Outcome` (normal completion with exit code,
  stdout and stderr; timeout, i.e. `subprocess.TimeoutExpired`; or any other
  launch/communication exception with its message).
* Python exceptions raised during a request (only `AttributeError` from
  calling `.get` on a non-dict in this program) are modelled with
  `Except String`; the main loop catches them exactly as the source does.
* Each call of `handle_call_tool` additionally returns the trace of external
  process invocations it performed (program name and argument list), so that
  "the process is/is not invoked" is expressible.  The source has a single
  `subprocess.run` call site, which is the single trace-recording point.
* Python `str()` formatting used by the f-strings is embedded by `pyStr`;
  the `repr` of composite values approximates Python by omitting character
  escaping inside quoted strings (no claim evaluates a message at a composite
  value).  Python string quotes are rendered as `\x27`.
* `pyStrip` models Python `str.strip()`: it drops leading and trailing ASCII
  whitespace characters (the unicode-whitespace cases Python additionally
  strips are irrelevant to the claims).
-/

/-- A parsed JSON value, as produced by Python `json.loads`.  `obj` models a
parsed Python dict: its field keys are distinct. -/
inductive JVal where
  | null
  | bool (b : Bool)
  | num (n : Int)
  | str (s : String)
  | arr (elems : List JVal)
  | obj (fields : List (String × JVal))

/-- Field lookup in the association list of a parsed JSON object. -/
def lookupField : List (String × JVal) → String → Option JVal
  | [], _ => none
  | (k, v) :: fs, key => if k = key then some v else lookupField fs key

/-- Lookup of a field of a `JVal`, `none` when the value is not an object or
the field is absent. -/
def jlookup : JVal → String → Option JVal
  | JVal.obj fs, key => lookupField fs key
  | _, _ => none

/-- The Python type name of a value, as it appears in `AttributeError`
messages (`json.loads` yields these six runtime types). -/
def pyTypeName : JVal → String
  | JVal.null => "NoneType"
  | JVal.bool _ => "bool"
  | JVal.num _ => "int"
  | JVal.str _ => "str"
  | JVal.arr _ => "list"
  | JVal.obj _ => "dict"

/-- Python `repr` of a string (quoting approximated: escaping omitted). -/
def pyReprString (s : String) : String :=
  "\x27" ++ s ++ "\x27"

mutual

/-- Python `repr` of a parsed JSON value. -/
def pyRepr : JVal → String
  | JVal.null => "None"
  | JVal.bool true => "True"
  | JVal.bool false => "False"
  | JVal.num n => toString n
  | JVal.str s => pyReprString s
  | JVal.arr xs => "[" ++ pyReprElems xs ++ "]"
  | JVal.obj fs => "\x7b" ++ pyReprFields fs ++ "\x7d"

/-- Comma-separated `repr` of list elements. -/
def pyReprElems : List JVal → String
  | [] => ""
  | [x] => pyRepr x
  | x :: y :: xs => pyRepr x ++ ", " ++ pyReprElems (y :: xs)

/-- Comma-separated `repr` of dict entries. -/
def pyReprFields : List (String × JVal) → String
  | [] => ""
  | [(k, v)] => pyReprString k ++ ": " ++ pyRepr v
  | (k, v) :: p :: fs => pyReprString k ++ ": " ++ pyRepr v ++ ", " ++ pyReprFields (p :: fs)

end

/-- Python `str()` of a parsed JSON value, the conversion used by f-strings:
scalars print bare, composites print as their `repr`. -/
def pyStr : JVal → String
  | JVal.null => "None"
  | JVal.bool true => "True"
  | JVal.bool false => "False"
  | JVal.num n => toString n
  | JVal.str s => s
  | v => pyRepr v

/-- Python `==` comparison of a parsed JSON value against a string literal:
true exactly when the value is that string (no cross-type equality between
`str` and the other JSON runtime types). -/
def JVal.eqStr : JVal → String → Bool
  | JVal.str s, t => s == t
  | _, _ => false

/-- Python `d.get(key, default)`.  On a dict it returns the field value or the
default; on any other value it raises `AttributeError`, modelled as
`Except.error` with the Python exception text. -/
def pyDictGet (d : JVal) (key : String) (dflt : JVal) : Except String JVal :=
  match d with
  | JVal.obj fs => Except.ok ((lookupField fs key).getD dflt)
  | other => Except.error ("\x27" ++ pyTypeName other ++ "\x27 object has no attribute \x27get\x27")

/-- Python `str.isspace` on the ASCII whitespace characters, the ones
`str.strip()` removes from JSON-decoded text in this program. -/
def pyIsSpace (c : Char) : Bool :=
  c == ' ' || c == '\t' || c == '\n' || c == '\r' || c == '\x0b' || c == '\x0c'

/-- Drops the longest leading run of characters satisfying `p`. -/
def dropLeading (p : Char → Bool) : List Char → List Char
  | [] => []
  | c :: cs => if p c then dropLeading p cs else c :: cs

/-- Python `s.strip()`: the string without its leading and trailing
whitespace. -/
def pyStrip (s : String) : String :=
  String.mk (List.reverse (dropLeading pyIsSpace (List.reverse (dropLeading pyIsSpace s.data))))

/-- Outcome of one external process invocation (`subprocess.run` with
`timeout=60`): normal completion carrying exit code, stdout and stderr;
`subprocess.TimeoutExpired`; or any other exception while launching or
communicating, carrying its `str()` text. -/
inductive Outcome where
  | completed (exitCode : Int) (stdout : String) (stderr : String)
  | timedOut
  | launchFailure (msg : String)

/-- The external process runner: program name and argument list to outcome. -/
def Runner : Type := String → List String → Outcome

/-- The trace of external process invocations performed while handling one
request: program name and argument list of each invocation, in order. -/
def CallTrace : Type := List (String × List String)

/-- A JSON-RPC response as built by `send_response`: a result or an error
(code and message), always carrying the request id. -/
inductive Response where
  | ok (id : JVal) (result : JVal)
  | err (id : JVal) (code : Int) (message : String)

/-- The id carried by a response. -/
def Response.id : Response → JVal
  | Response.ok i _ => i
  | Response.err i _ _ => i

/-- The JSON object printed by `send_response` for a response: `jsonrpc`,
`id`, and exactly one of `result` / `error`. -/
def responseJson : Response → JVal
  | Response.ok i r =>
      JVal.obj [("jsonrpc", JVal.str "2.0"), ("id", i), ("result", r)]
  | Response.err i code msg =>
      JVal.obj [("jsonrpc", JVal.str "2.0"), ("id", i),
        ("error", JVal.obj [("code", JVal.num code), ("message", JVal.str msg)])]

/-- The fixed result returned by the `initialize` handler
(source function `handle_initialize`). -/
def initResult : JVal :=
  JVal.obj
    [("protocolVersion", JVal.str "2024-11-05"),
     ("capabilities", JVal.obj [("tools", JVal.obj [])]),
     ("serverInfo", JVal.obj
       [("name", JVal.str "gemini-mcp-server"),
        ("version", JVal.str "1.0.0")])]

/-- The `initialize` handler (source function `handle_initialize`): ignores
params, responds with the fixed `initResult`. -/
def handleInit (request_id : JVal) : Response :=
  Response.ok request_id initResult

/-- The single registered tool descriptor, as listed by `handle_list_tools`. -/
def geminiSearchTool : JVal :=
  JVal.obj
    [("name", JVal.str "gemini_search"),
     ("description", JVal.str "Search the web using Google Gemini AI for current information, news, weather, and real-time data"),
     ("inputSchema", JVal.obj
       [("type", JVal.str "object"),
        ("properties", JVal.obj
          [("query", JVal.obj
            [("type", JVal.str "string"),
             ("description", JVal.str "The search query (e.g., \x27current weather in Tokyo\x27, \x27latest news about AI\x27, \x27stock price of AAPL\x27)")])]),
        ("required", JVal.arr [JVal.str "query"])])]

/-- The `tools/list` handler (source function `handle_list_tools`): ignores
params, responds with the one-element tool list. -/
def handle_list_tools (request_id : JVal) : Response :=
  Response.ok request_id (JVal.obj [("tools", JVal.arr [geminiSearchTool])])

/-- The `tools/call` handler (source function `handle_call_tool`), returning
the response it sends together with the trace of external process invocations
it performs.  Mirrors the source: unknown tool name responds `-32602` without
invoking the process; for `gemini_search` the query argument defaults to the
empty string, the prompt is the query prefixed by the fixed marker, and the
outcome of running `gemini -p <prompt>` is translated to a result (exit code
zero, trimmed stdout as one text content item) or a `-32603` error (non-zero
exit embeds stderr; timeout has a fixed message; any other exception embeds
its text — including the `AttributeError` raised when `arguments` is not a
dict, caught by the same handler). -/
def handle_call_tool (run : Runner) (request_id : JVal) (tool_name : JVal)
    (arguments : JVal) : Response × CallTrace :=
  if tool_name.eqStr "gemini_search" then
    match pyDictGet arguments "query" (JVal.str "") with
    | Except.error e =>
        (Response.err request_id (-32603) ("Error executing gemini: " ++ e), [])
    | Except.ok query =>
        let prompt := "WebSearch: " ++ pyStr query
        match run "gemini" ["-p", prompt] with
        | Outcome.completed exitCode out errOut =>
            if exitCode = 0 then
              (Response.ok request_id (JVal.obj
                 [("content", JVal.arr [JVal.obj
                   [("type", JVal.str "text"),
                    ("text", JVal.str (pyStrip out))]])]),
               [("gemini", ["-p", prompt])])
            else
              (Response.err request_id (-32603)
                 ("Gemini command failed: " ++ errOut),
               [("gemini", ["-p", prompt])])
        | Outcome.timedOut =>
            (Response.err request_id (-32603) "Gemini command timed out",
             [("gemini", ["-p", prompt])])
        | Outcome.launchFailure msg =>
            (Response.err request_id (-32603) ("Error executing gemini: " ++ msg),
             [("gemini", ["-p", prompt])])
  else
    (Response.err request_id (-32602) ("Unknown tool: " ++ pyStr tool_name), [])

/-- One iteration of the dispatch in `main` on a successfully parsed request
value: extract `method`, `id` and `params` (the latter defaulting to an empty
dict), then dispatch.  `Except.error` is a Python exception escaping to the
loop-level handler (here only the `AttributeError` from `.get` on a
non-dict). -/
def mainHandle (run : Runner) (request : JVal) : Except String (Response × CallTrace) := do
  let method ← pyDictGet request "method" JVal.null
  let request_id ← pyDictGet request "id" JVal.null
  let params ← pyDictGet request "params" (JVal.obj [])
  if method.eqStr "initialize" then
    return (handleInit request_id, [])
  else if method.eqStr "tools/list" then
    return (handle_list_tools request_id, [])
  else if method.eqStr "tools/call" then
    let tool_name ← pyDictGet params "name" JVal.null
    let arguments ← pyDictGet params "arguments" (JVal.obj [])
    return handle_call_tool run request_id tool_name arguments
  else
    return (Response.err request_id (-32601) ("Method not found: " ++ pyStr method), [])

/-- What the main loop does with one input line: emit exactly one response
(with the process invocations made for it), silently skip the line (JSON
decode failure), or log a caught exception to stderr and continue. -/
inductive StepOut where
  | emit (r : Response) (calls : CallTrace)
  | silent
  | logged (msg : String)

/-- Processing of one input line by the body of `main`'s `while` loop.  The
line is given as its JSON parse result: `none` when `json.loads` raises
`JSONDecodeError` (the line is ignored), `some v` when it parses to `v`.  A
Python exception during dispatch is caught and written to stderr with the
`Error: ` prefix; in both non-emitting cases the loop continues. -/
def processLine (run : Runner) (line : Option JVal) : StepOut :=
  match line with
  | none => StepOut.silent
  | some req =>
      match mainHandle run req with
      | Except.ok (r, calls) => StepOut.emit r calls
      | Except.error e => StepOut.logged ("Error: " ++ e)

/-- The `while True` loop of `main`, its input stream given as the list of
parse results of the lines read before end-of-input (or interrupt): it
processes the lines in order and terminates when they are exhausted. -/
def mainLoop (run : Runner) : List (Option JVal) → List StepOut
  | [] => []
  | l :: ls => processLine run l :: mainLoop run ls

/-! Helper definitions used by the theorem statements. -/

/-- The `method` value extracted by `main` from a parsed request object. -/
def reqMethod (fs : List (String × JVal)) : JVal :=
  (lookupField fs "method").getD JVal.null

/-- The `id` value extracted by `main` from a parsed request object. -/
def reqId (fs : List (String × JVal)) : JVal :=
  (lookupField fs "id").getD JVal.null

/-- The `params` value extracted by `main` (defaulting to an empty dict). -/
def reqParams (fs : List (String × JVal)) : JVal :=
  (lookupField fs "params").getD (JVal.obj [])

/-- The query argument used by the `gemini_search` branch: the `query` field
of the arguments dict, defaulting to the empty string. -/
def queryArg (arguments : JVal) : JVal :=
  (jlookup arguments "query").getD (JVal.str "")

/-- Lookup along a path of field names, taking absent fields to `null`. -/
def jpath (v : JVal) : List String → JVal
  | [] => v
  | k :: ks => jpath ((jlookup v k).getD JVal.null) ks

/-- A syntactically valid Request Envelope after JSON parsing (spec data
model): a JSON object whose `method` field is a string and whose `params`
field, when present, is an object. -/
def validEnvelope : JVal → Bool
  | JVal.obj fs =>
      (match lookupField fs "method" with
       | some (JVal.str _) => true
       | _ => false)
      &&
      (match lookupField fs "params" with
       | none => true
       | some (JVal.obj _) => true
       | _ => false)
  | _ => false

/-! Helper lemmas. -/

/-- The Python comparison of a value against a string literal succeeds exactly
on that string value. -/
theorem eq_of_eqStr : ∀ {m : JVal} {s : String}, m.eqStr s = true → m = JVal.str s
  | JVal.null, _, h => Bool.noConfusion h
  | JVal.bool _, _, h => Bool.noConfusion h
  | JVal.num _, _, h => Bool.noConfusion h
  | JVal.arr _, _, h => Bool.noConfusion h
  | JVal.obj _, _, h => Bool.noConfusion h
  | JVal.str _, _, h => congrArg JVal.str (eq_of_beq h)

/-- A value different from the string literal compares false against it. -/
theorem eqStr_false_of_ne : ∀ {m : JVal} {s : String}, m ≠ JVal.str s → m.eqStr s = false
  | JVal.null, _, _ => rfl
  | JVal.bool _, _, _ => rfl
  | JVal.num _, _, _ => rfl
  | JVal.arr _, _, _ => rfl
  | JVal.obj _, _, _ => rfl
  | JVal.str s1, s, h => by
      cases hb : (s1 == s) with
      | false => simp [JVal.eqStr, hb]
      | true => exact absurd (congrArg JVal.str (eq_of_beq hb)) h

/-- `dict.get` on an object returns the field value or the default. -/
theorem pyDictGet_obj (fs : List (String × JVal)) (k : String) (d : JVal) :
    pyDictGet (JVal.obj fs) k d = Except.ok ((lookupField fs k).getD d) := rfl

/-- The response built by `handle_call_tool` always carries the request id. -/
theorem handle_call_tool_id (run : Runner) (rid tn args : JVal) :
    ((handle_call_tool run rid tn args).1).id = rid := by
  unfold handle_call_tool
  split
  · split
    · rfl
    · dsimp only
      split
      · split <;> rfl
      · rfl
      · rfl
  · rfl

/-- Unfolding of `mainHandle` on a parsed request object: the three `get`s on
the request dict always succeed, leaving the method dispatch. -/
theorem mainHandle_obj (run : Runner) (fs : List (String × JVal)) :
    mainHandle run (JVal.obj fs) =
      (if (reqMethod fs).eqStr "initialize" then
        Except.ok (handleInit (reqId fs), [])
      else if (reqMethod fs).eqStr "tools/list" then
        Except.ok (handle_list_tools (reqId fs), [])
      else if (reqMethod fs).eqStr "tools/call" then
        (do
          let tool_name ← pyDictGet (reqParams fs) "name" JVal.null
          let arguments ← pyDictGet (reqParams fs) "arguments" (JVal.obj [])
          return handle_call_tool run (reqId fs) tool_name arguments)
      else
        Except.ok (Response.err (reqId fs) (-32601)
          ("Method not found: " ++ pyStr (reqMethod fs)), [])) := rfl

/-- `mainHandle` on a request whose method is the string `tools/call` and
whose params value is an object: dispatches to `handle_call_tool` with the
`name` field (defaulting to `null`) and the `arguments` field (defaulting to
an empty dict). -/
theorem mainHandle_toolsCall (run : Runner) (fs pfs : List (String × JVal))
    (hm : reqMethod fs = JVal.str "tools/call")
    (hp : reqParams fs = JVal.obj pfs) :
    mainHandle run (JVal.obj fs) =
      Except.ok (handle_call_tool run (reqId fs)
        ((lookupField pfs "name").getD JVal.null)
        ((lookupField pfs "arguments").getD (JVal.obj []))) := by
  rw [mainHandle_obj, hm, hp]
  rfl

/-- `processLine` on a parsed line is the catch-all dispatch of the loop
body. -/
theorem processLine_some (run : Runner) (req : JVal) :
    processLine run (some req) =
      (match mainHandle run req with
       | Except.ok (r, calls) => StepOut.emit r calls
       | Except.error e => StepOut.logged ("Error: " ++ e)) := rfl

/-! The claims. -/

/-- C2: no failure while handling a line terminates the loop — `mainLoop`
processes every input line in order, one loop-body step per line (each either
emitting one response, silently skipping an unparsable line, or logging a
caught exception to the diagnostic channel), and on end-of-input it exits
with no further output. -/
theorem c2_loop_processes_every_line (run : Runner) (lines : List (Option JVal)) :
    mainLoop run lines = List.map (processLine run) lines ∧
    (mainLoop run lines).length = lines.length ∧
    mainLoop run [] = [] := by
  have hmap : ∀ ls : List (Option JVal), mainLoop run ls = List.map (processLine run) ls := by
    intro ls
    induction ls with
    | nil => rfl
    | cons l ls ih => simp [mainLoop, ih]
  refine ⟨hmap lines, ?_, rfl⟩
  rw [hmap lines, List.length_map]

/-- C3: a `tools/call` of `gemini_search` invokes the external process as
`gemini -p <prompt>` where the prompt is exactly `WebSearch: ` followed by
the query argument, the query defaulting to the empty string when the
arguments dict has no `query` field; the trace shows no other invocation, so
the raw query is never passed unprefixed. -/
theorem c3_gemini_search_prompt_marker (run : Runner) (rid : JVal)
    (args : List (String × JVal)) (q : String)
    (h : lookupField args "query" = some (JVal.str q) ∨
         (lookupField args "query" = none ∧ q = "")) :
    (handle_call_tool run rid (JVal.str "gemini_search") (JVal.obj args)).2
      = [("gemini", ["-p", "WebSearch: " ++ q])] := by
  have hq : pyDictGet (JVal.obj args) "query" (JVal.str "") = Except.ok (JVal.str q) := by
    rcases h with h | ⟨h, rfl⟩ <;> rw [pyDictGet_obj, h] <;> rfl
  simp only [handle_call_tool, JVal.eqStr, beq_self_eq_true, if_true, hq, pyStr]
  cases hr : run "gemini" ["-p", "WebSearch: " ++ q] with
  | completed ec out er => by_cases hec : ec = 0 <;> simp [hec]
  | timedOut => simp
  | launchFailure m => simp

/-- Witness for C3 at a concrete request: arguments `{query: "Tokyo"}` lead
to the single invocation `gemini -p "WebSearch: Tokyo"`. -/
theorem c3_witness :
    lookupField [("query", JVal.str "Tokyo")] "query" = some (JVal.str "Tokyo") ∧
    (handle_call_tool (fun _ _ => Outcome.timedOut) JVal.null
        (JVal.str "gemini_search") (JVal.obj [("query", JVal.str "Tokyo")])).2
      = [("gemini", ["-p", "WebSearch: Tokyo"])] :=
  ⟨rfl,
   Eq.trans
     (c3_gemini_search_prompt_marker (fun _ _ => Outcome.timedOut) JVal.null
       [("query", JVal.str "Tokyo")] "Tokyo" (Or.inl rfl))
     rfl⟩

/-- C4: when the external process exits with code zero, the `gemini_search`
response is a success whose value is a single text content item holding the
stripped stdout of the process. -/
theorem c4_success_trimmed_stdout_content (run : Runner) (rid : JVal)
    (args : List (String × JVal)) (out errS : String)
    (hrun : run "gemini" ["-p", "WebSearch: " ++ pyStr (queryArg (JVal.obj args))]
              = Outcome.completed 0 out errS) :
    (handle_call_tool run rid (JVal.str "gemini_search") (JVal.obj args)).1
      = Response.ok rid (JVal.obj [("content", JVal.arr [JVal.obj
          [("type", JVal.str "text"), ("text", JVal.str (pyStrip out))]])]) := by
  have hq : queryArg (JVal.obj args) = (lookupField args "query").getD (JVal.str "") := rfl
  rw [hq] at hrun
  simp only [handle_call_tool, JVal.eqStr, beq_self_eq_true, if_true, pyDictGet_obj]
  rw [hrun]
  simp

/-- Witness for C4: stdout `" 42 degrees \n"` with exit code 0 yields the
content item with text `"42 degrees"`. -/
theorem c4_witness :
    ((fun _ _ => Outcome.completed 0 " 42 degrees \n" "" : Runner) "gemini"
        ["-p", "WebSearch: " ++ pyStr (queryArg (JVal.obj [("query", JVal.str "Tokyo")]))]
      = Outcome.completed 0 " 42 degrees \n" "") ∧
    (handle_call_tool (fun _ _ => Outcome.completed 0 " 42 degrees \n" "")
        (JVal.num 1) (JVal.str "gemini_search")
        (JVal.obj [("query", JVal.str "Tokyo")])).1
      = Response.ok (JVal.num 1) (JVal.obj [("content", JVal.arr [JVal.obj
          [("type", JVal.str "text"), ("text", JVal.str "42 degrees")]])]) :=
  ⟨rfl,
   Eq.trans
     (c4_success_trimmed_stdout_content (fun _ _ => Outcome.completed 0 " 42 degrees \n" "")
       (JVal.num 1) [("query", JVal.str "Tokyo")] " 42 degrees \n" "" rfl)
     rfl⟩

/-- C5: each failing outcome of the `gemini_search` process maps to a
`-32603` error: non-zero exit embeds the stderr text, a timeout has the fixed
timed-out message (and the response carries no result), and a launch or
communication failure embeds the failure description. -/
theorem c5_failure_outcomes (run1 run2 run3 : Runner) (rid : JVal)
    (args : List (String × JVal)) (ec : Int) (out errS m : String)
    (h1 : run1 "gemini" ["-p", "WebSearch: " ++ pyStr (queryArg (JVal.obj args))]
            = Outcome.completed ec out errS)
    (hec : ec ≠ 0)
    (h2 : run2 "gemini" ["-p", "WebSearch: " ++ pyStr (queryArg (JVal.obj args))]
            = Outcome.timedOut)
    (h3 : run3 "gemini" ["-p", "WebSearch: " ++ pyStr (queryArg (JVal.obj args))]
            = Outcome.launchFailure m) :
    (handle_call_tool run1 rid (JVal.str "gemini_search") (JVal.obj args)).1
        = Response.err rid (-32603) ("Gemini command failed: " ++ errS) ∧
    (handle_call_tool run2 rid (JVal.str "gemini_search") (JVal.obj args)).1
        = Response.err rid (-32603) "Gemini command timed out" ∧
    (handle_call_tool run3 rid (JVal.str "gemini_search") (JVal.obj args)).1
        = Response.err rid (-32603) ("Error executing gemini: " ++ m) := by
  have hq : queryArg (JVal.obj args) = (lookupField args "query").getD (JVal.str "") := rfl
  rw [hq] at h1 h2 h3
  refine ⟨?_, ?_, ?_⟩ <;>
    simp only [handle_call_tool, JVal.eqStr, beq_self_eq_true, if_true, pyDictGet_obj]
  · rw [h1]; simp [hec]
  · rw [h2]
  · rw [h3]

/-- Witness for C5: exit code 2 with stderr `boom`, a timeout, and a launch
failure `No such file` produce the three `-32603` error messages. -/
theorem c5_witness :
    ((2 : Int) ≠ 0) ∧
    (handle_call_tool (fun _ _ => Outcome.completed 2 "" "boom") (JVal.num 1)
        (JVal.str "gemini_search") (JVal.obj [])).1
      = Response.err (JVal.num 1) (-32603) "Gemini command failed: boom" ∧
    (handle_call_tool (fun _ _ => Outcome.timedOut) (JVal.num 1)
        (JVal.str "gemini_search") (JVal.obj [])).1
      = Response.err (JVal.num 1) (-32603) "Gemini command timed out" ∧
    (handle_call_tool (fun _ _ => Outcome.launchFailure "No such file") (JVal.num 1)
        (JVal.str "gemini_search") (JVal.obj [])).1
      = Response.err (JVal.num 1) (-32603) "Error executing gemini: No such file" := by
  have h := c5_failure_outcomes (fun _ _ => Outcome.completed 2 "" "boom")
    (fun _ _ => Outcome.timedOut) (fun _ _ => Outcome.launchFailure "No such file")
    (JVal.num 1) [] 2 "" "boom" "No such file" rfl (by decide) rfl rfl
  exact ⟨by decide, h.1.trans rfl, h.2.1, h.2.2.trans rfl⟩

/-- C6: a `tools/call` naming any tool other than `gemini_search` responds
with the `-32602` unknown-tool error naming that tool, and the invocation
trace is empty — the external process is never run. -/
theorem c6_unknown_tool_error (run : Runner) (rid tool_name arguments : JVal)
    (h : tool_name ≠ JVal.str "gemini_search") :
    handle_call_tool run rid tool_name arguments
      = (Response.err rid (-32602) ("Unknown tool: " ++ pyStr tool_name), []) := by
  have hb := eqStr_false_of_ne h
  simp [handle_call_tool, hb]

/-- Witness for C6 at the concrete tool name `web_search`. -/
theorem c6_witness :
    (JVal.str "web_search" ≠ JVal.str "gemini_search") ∧
    handle_call_tool (fun _ _ => Outcome.timedOut) (JVal.num 1)
        (JVal.str "web_search") (JVal.obj [])
      = (Response.err (JVal.num 1) (-32602) "Unknown tool: web_search", []) := by
  have hne : JVal.str "web_search" ≠ JVal.str "gemini_search" := by
    intro hc
    injection hc with h2
    exact absurd h2 (by decide)
  exact ⟨hne,
    (c6_unknown_tool_error (fun _ _ => Outcome.timedOut) (JVal.num 1)
      (JVal.str "web_search") (JVal.obj []) hne).trans rfl⟩

/-- `mainHandle` on a request whose method is the string `initialize`:
responds with the fixed result. -/
theorem mainHandle_init (run : Runner) (fs : List (String × JVal))
    (hm : reqMethod fs = JVal.str "initialize") :
    mainHandle run (JVal.obj fs) = Except.ok (Response.ok (reqId fs) initResult, []) := by
  rw [mainHandle_obj, hm]
  rfl

/-- `mainHandle` on a request whose method is the string `tools/list`:
responds with the tool listing. -/
theorem mainHandle_list (run : Runner) (fs : List (String × JVal))
    (hm : reqMethod fs = JVal.str "tools/list") :
    mainHandle run (JVal.obj fs) = Except.ok (handle_list_tools (reqId fs), []) := by
  rw [mainHandle_obj, hm]
  rfl

/-- `mainHandle` on a request whose method compares false against all three
dispatch strings: responds with the `-32601` method-not-found error. -/
theorem mainHandle_notFound (run : Runner) (fs : List (String × JVal))
    (e1 : (reqMethod fs).eqStr "initialize" = false)
    (e2 : (reqMethod fs).eqStr "tools/list" = false)
    (e3 : (reqMethod fs).eqStr "tools/call" = false) :
    mainHandle run (JVal.obj fs)
      = Except.ok (Response.err (reqId fs) (-32601)
          ("Method not found: " ++ pyStr (reqMethod fs)), []) := by
  rw [mainHandle_obj, e1, e2, e3]
  rfl

/-- C7: a parsed request whose method value is none of `initialize`,
`tools/list`, `tools/call` — a missing method is the value `None`, an empty
method is the empty string, both covered — gets the `-32601` error whose
message names that exact method value. -/
theorem c7_unknown_method_error (run : Runner) (fs : List (String × JVal))
    (h1 : reqMethod fs ≠ JVal.str "initialize")
    (h2 : reqMethod fs ≠ JVal.str "tools/list")
    (h3 : reqMethod fs ≠ JVal.str "tools/call") :
    mainHandle run (JVal.obj fs)
      = Except.ok (Response.err (reqId fs) (-32601)
          ("Method not found: " ++ pyStr (reqMethod fs)), []) :=
  mainHandle_notFound run fs (eqStr_false_of_ne h1) (eqStr_false_of_ne h2)
    (eqStr_false_of_ne h3)

/-- Witness for C7 at the method `foo/bar`. -/
theorem c7_witness :
    (JVal.str "foo/bar" ≠ JVal.str "initialize") ∧
    mainHandle (fun _ _ => Outcome.timedOut)
        (JVal.obj [("method", JVal.str "foo/bar"), ("id", JVal.num 3)])
      = Except.ok (Response.err (JVal.num 3) (-32601) "Method not found: foo/bar", []) := by
  have mk : ∀ t : String, "foo/bar" ≠ t → JVal.str "foo/bar" ≠ JVal.str t := by
    intro t ht hc
    injection hc with hcc
    exact ht hcc
  refine ⟨mk _ (by decide), ?_⟩
  exact (c7_unknown_method_error (fun _ _ => Outcome.timedOut)
    [("method", JVal.str "foo/bar"), ("id", JVal.num 3)]
    (mk _ (by decide)) (mk _ (by decide)) (mk _ (by decide))).trans rfl

/-- C8: every `initialize` request, whatever its params, gets the fixed
success result: protocol version `2024-11-05`, capabilities `{tools: {}}`,
server name `gemini-mcp-server`, version `1.0.0`. -/
theorem c8_init_fixed_result (run : Runner) (fs : List (String × JVal))
    (h : reqMethod fs = JVal.str "initialize") :
    mainHandle run (JVal.obj fs) = Except.ok (Response.ok (reqId fs) initResult, []) ∧
    initResult = JVal.obj
      [("protocolVersion", JVal.str "2024-11-05"),
       ("capabilities", JVal.obj [("tools", JVal.obj [])]),
       ("serverInfo", JVal.obj
         [("name", JVal.str "gemini-mcp-server"),
          ("version", JVal.str "1.0.0")])] :=
  ⟨mainHandle_init run fs h, rfl⟩

/-- Witness for C8 on a request with no params and no id. -/
theorem c8_witness :
    (reqMethod [("method", JVal.str "initialize")] = JVal.str "initialize") ∧
    mainHandle (fun _ _ => Outcome.timedOut) (JVal.obj [("method", JVal.str "initialize")])
      = Except.ok (Response.ok JVal.null initResult, []) :=
  ⟨rfl,
   ((c8_init_fixed_result (fun _ _ => Outcome.timedOut)
     [("method", JVal.str "initialize")] rfl).1).trans rfl⟩

/-- C9: every `tools/list` request, whatever its params, gets a success
result whose tools array has exactly one element, named `gemini_search`, with
an object input schema whose `query` property is a string and is required. -/
theorem c9_tools_list_single_descriptor (run : Runner) (fs : List (String × JVal))
    (h : reqMethod fs = JVal.str "tools/list") :
    mainHandle run (JVal.obj fs)
      = Except.ok (Response.ok (reqId fs)
          (JVal.obj [("tools", JVal.arr [geminiSearchTool])]), []) ∧
    jpath geminiSearchTool ["name"] = JVal.str "gemini_search" ∧
    jpath geminiSearchTool ["inputSchema", "type"] = JVal.str "object" ∧
    jpath geminiSearchTool ["inputSchema", "properties", "query", "type"] = JVal.str "string" ∧
    jpath geminiSearchTool ["inputSchema", "required"] = JVal.arr [JVal.str "query"] :=
  ⟨mainHandle_list run fs h, rfl, rfl, rfl, rfl⟩

/-- Witness for C9 on a request with an id and no params. -/
theorem c9_witness :
    (reqMethod [("method", JVal.str "tools/list"), ("id", JVal.str "a")] = JVal.str "tools/list") ∧
    mainHandle (fun _ _ => Outcome.timedOut)
        (JVal.obj [("method", JVal.str "tools/list"), ("id", JVal.str "a")])
      = Except.ok (Response.ok (JVal.str "a")
          (JVal.obj [("tools", JVal.arr [geminiSearchTool])]), []) :=
  ⟨rfl,
   ((c9_tools_list_single_descriptor (fun _ _ => Outcome.timedOut)
     [("method", JVal.str "tools/list"), ("id", JVal.str "a")] rfl).1).trans rfl⟩

/-- C10: a `tools/call` whose params dict has no `name` field behaves exactly
like an unknown tool: the tool name defaults to `None` (the null value), the
response is the `-32602` unknown-tool error with that null name printed in
the message, and the invocation trace is empty — the external process is
never run. -/
theorem c10_missing_tool_name (run : Runner) (fs pfs : List (String × JVal))
    (hm : reqMethod fs = JVal.str "tools/call")
    (hp : reqParams fs = JVal.obj pfs)
    (hname : lookupField pfs "name" = none) :
    mainHandle run (JVal.obj fs)
      = Except.ok (Response.err (reqId fs) (-32602)
          ("Unknown tool: " ++ pyStr JVal.null), []) ∧
    pyStr JVal.null = "None" := by
  refine ⟨?_, rfl⟩
  rw [mainHandle_toolsCall run fs pfs hm hp, hname]
  rfl

/-- Witness for C10 on a `tools/call` request whose params only carry
arguments. -/
theorem c10_witness :
    lookupField [("arguments", JVal.obj [])] "name" = none ∧
    mainHandle (fun _ _ => Outcome.timedOut)
        (JVal.obj [("method", JVal.str "tools/call"), ("id", JVal.num 2),
          ("params", JVal.obj [("arguments", JVal.obj [])])])
      = Except.ok (Response.err (JVal.num 2) (-32602) "Unknown tool: None", []) :=
  ⟨rfl,
   ((c10_missing_tool_name (fun _ _ => Outcome.timedOut)
      [("method", JVal.str "tools/call"), ("id", JVal.num 2),
       ("params", JVal.obj [("arguments", JVal.obj [])])]
      [("arguments", JVal.obj [])] rfl rfl rfl).1).trans rfl⟩

/-- C1: every line that parses to a syntactically valid Request Envelope
makes the loop body emit exactly one response, carrying the request's id
(`null` when absent); a line that does not parse as JSON is silently dropped:
no response, and the loop proceeds. -/
theorem c1_valid_envelope_unique_response (run : Runner) (req : JVal)
    (h : validEnvelope req = true) :
    (∃ r calls, processLine run (some req) = StepOut.emit r calls ∧
       Response.id r = (jlookup req "id").getD JVal.null) ∧
    processLine run none = StepOut.silent := by
  refine ⟨?_, rfl⟩
  cases req with
  | null => exact Bool.noConfusion h
  | bool b => exact Bool.noConfusion h
  | num n => exact Bool.noConfusion h
  | str s => exact Bool.noConfusion h
  | arr xs => exact Bool.noConfusion h
  | obj fs =>
    simp only [validEnvelope, Bool.and_eq_true] at h
    obtain ⟨h1, h2⟩ := h
    rcases hm : lookupField fs "method" with _ | mv
    · rw [hm] at h1; exact Bool.noConfusion h1
    rcases mv with _ | b | n | s | xs | ofs
    · rw [hm] at h1; exact Bool.noConfusion h1
    · rw [hm] at h1; exact Bool.noConfusion h1
    · rw [hm] at h1; exact Bool.noConfusion h1
    case obj.intro.some.arr => rw [hm] at h1; exact Bool.noConfusion h1
    case obj.intro.some.obj => rw [hm] at h1; exact Bool.noConfusion h1
    case obj.intro.some.str =>
    have hreq : reqMethod fs = JVal.str s := by
      unfold reqMethod; rw [hm]; rfl
    have hpar : ∃ pfs, reqParams fs = JVal.obj pfs := by
      rcases hp : lookupField fs "params" with _ | pv
      · exact ⟨[], by unfold reqParams; rw [hp]; rfl⟩
      rcases pv with _ | b2 | n2 | s2 | xs2 | pfs
      · rw [hp] at h2; exact Bool.noConfusion h2
      · rw [hp] at h2; exact Bool.noConfusion h2
      · rw [hp] at h2; exact Bool.noConfusion h2
      · rw [hp] at h2; exact Bool.noConfusion h2
      · rw [hp] at h2; exact Bool.noConfusion h2
      · exact ⟨pfs, by unfold reqParams; rw [hp]; rfl⟩
    by_cases hs1 : s = "initialize"
    · refine ⟨Response.ok (reqId fs) initResult, [], ?_, rfl⟩
      rw [processLine_some, mainHandle_init run fs (hs1 ▸ hreq)]
    by_cases hs2 : s = "tools/list"
    · refine ⟨handle_list_tools (reqId fs), [], ?_, rfl⟩
      rw [processLine_some, mainHandle_list run fs (hs2 ▸ hreq)]
    by_cases hs3 : s = "tools/call"
    · obtain ⟨pfs, hp2⟩ := hpar
      refine ⟨(handle_call_tool run (reqId fs) ((lookupField pfs "name").getD JVal.null)
          ((lookupField pfs "arguments").getD (JVal.obj []))).1,
        (handle_call_tool run (reqId fs) ((lookupField pfs "name").getD JVal.null)
          ((lookupField pfs "arguments").getD (JVal.obj []))).2, ?_, ?_⟩
      · rw [processLine_some, mainHandle_toolsCall run fs pfs (hs3 ▸ hreq) hp2]
      · rw [handle_call_tool_id]
        rfl
    · have mkne : ∀ t : String, s ≠ t → reqMethod fs ≠ JVal.str t := by
        intro t ht hc
        rw [hreq] at hc
        injection hc with hcc
        exact ht hcc
      refine ⟨Response.err (reqId fs) (-32601) ("Method not found: " ++ pyStr (reqMethod fs)),
        [], ?_, rfl⟩
      rw [processLine_some, mainHandle_notFound run fs (eqStr_false_of_ne (mkne _ hs1))
        (eqStr_false_of_ne (mkne _ hs2)) (eqStr_false_of_ne (mkne _ hs3))]

/-- Witness for C1 on a concrete valid `tools/list` request line. -/
theorem c1_witness :
    validEnvelope (JVal.obj [("method", JVal.str "tools/list"), ("id", JVal.num 7)]) = true ∧
    ((∃ r calls, processLine (fun _ _ => Outcome.timedOut)
          (some (JVal.obj [("method", JVal.str "tools/list"), ("id", JVal.num 7)]))
        = StepOut.emit r calls ∧
        Response.id r = (jlookup (JVal.obj [("method", JVal.str "tools/list"),
          ("id", JVal.num 7)]) "id").getD JVal.null) ∧
      processLine (fun _ _ => Outcome.timedOut) none = StepOut.silent) :=
  ⟨rfl,
   c1_valid_envelope_unique_response (fun _ _ => Outcome.timedOut)
     (JVal.obj [("method", JVal.str "tools/list"), ("id", JVal.num 7)]) rfl⟩
